import Mathlib

/-!
Verification of the AI-Knowledge-Assistant backend (FastAPI + ChromaDB + LangChain).

This file gives a shallow embedding, in Lean 4, of the parts of the backend that
the specification claims talk about:

* `app/core/config.py`            — `Settings` (defaults relevant to the claims);
* `app/services/document_processor.py` — `validate_file`, `save_file`,
  `get_content_preview`, `split_text` (the recursive splitter itself is an
  external langchain component, modelled as an oracle function);
* `app/services/vector_store.py`  — `_get_mock_embedding`, `search` (the ChromaDB
  collection is an external component; we model it as a list of entries carrying
  their cosine distance to the query, queried nearest-first with a metadata
  filter, which is its documented contract);
* `app/services/llm_service.py`   — backend selection, `_format_context`,
  `_get_mock_response`, `answer_question` (LLM invocation and wall-clock time
  are external; they enter as oracle parameters);
* `app/api/routes/documents.py`   — `upload_documents`, `reprocess_document`,
  `process_document_background`;
* `app/api/routes/chat.py`        — persistence of `ChatMessage.sources` and its
  round-trip through `/ask/history`.

Python floats are modelled by `ℚ` (the arithmetic the claims mention — `x / 255`,
`1 - d`, `round(x, n)` — is exact at the precision the claims discuss).
Python `round(x, n)` rounds half to even; `round_half_even` below implements
that convention on `ℚ`.
-/

/-! ### `app/core/config.py` — Settings -/

/-- The subset of `Settings` (config.py) the verified operations read. -/
structure Settings where
  LLM_PROVIDER : String
  OPENAI_API_KEY : String
  ANTHROPIC_API_KEY : String
  UPLOAD_DIR : String
  MAX_FILE_SIZE : Nat
  ALLOWED_EXTENSIONS : List String
deriving DecidableEq, Repr

/-- Default settings values from `config.py`. -/
def defaultSettings : Settings :=
  { LLM_PROVIDER := "anthropic"
  , OPENAI_API_KEY := ""
  , ANTHROPIC_API_KEY := ""
  , UPLOAD_DIR := "./uploads"
  , MAX_FILE_SIZE := 10 * 1024 * 1024
  , ALLOWED_EXTENSIONS := [".txt", ".pdf"] }

/-! ### Python helpers: `pathlib.Path(...).suffix` and `round` -/

/-- Split a character list on a separator (the `List Char` analogue of
`str.split(sep)`; always returns at least one segment). -/
def splitOnChar (sep : Char) : List Char → List (List Char)
  | [] => [[]]
  | x :: xs =>
    match splitOnChar sep xs with
    | [] => [[]]
    | h :: t => if x = sep then [] :: h :: t else (x :: h) :: t

/-- The final path component, as in `pathlib`: the part after the last `/`. -/
def pathName (s : String) : String :=
  String.mk ((splitOnChar '/' s.toList).getLastD s.toList)

/-- Python `str.strip()`: drop whitespace from both ends. -/
def py_strip (s : String) : String :=
  String.mk
    (((s.toList.dropWhile fun c => c.isWhitespace).reverse.dropWhile
        fun c => c.isWhitespace).reverse)

/-- Python slicing `s[:n]`: the first `n` characters. -/
def py_take (s : String) (n : Nat) : String :=
  String.mk (s.toList.take n)

/-- Index of the last `.` in a character list, if any. -/
def lastDotIndex (cs : List Char) : Option Nat :=
  ((cs.enum.filter fun p => p.2 == '.').map Prod.fst).getLast?

/-- `pathlib.Path(s).suffix`: with `name` the final component and `i` the index
of its last dot, the suffix is `name[i:]` when `0 < i < len(name) - 1`, else
the empty string. -/
def pathSuffix (s : String) : String :=
  let cs := (pathName s).toList
  match lastDotIndex cs with
  | none => ""
  | some i => if 0 < i ∧ i < cs.length - 1 then String.mk (cs.drop i) else ""

/-- Python `str.lower()` (ASCII, which is all the source compares): lowercase
every character.  (`String.toLower` is extensionally the same function but is
implemented by well-founded recursion and does not reduce in the kernel; this
`List`-based form is used so concrete instances evaluate.) -/
def py_lower (s : String) : String :=
  String.mk (s.toList.map Char.toLower)

/-- Round a rational to an integer, half to even — Python's `round` convention. -/
def round_half_even (q : ℚ) : ℤ :=
  let f := Int.floor q
  let frac := q - f
  if frac < 1/2 then f
  else if 1/2 < frac then f + 1
  else if Even f then f else f + 1

/-- Python `round(q, 4)`. -/
def round4 (q : ℚ) : ℚ := (round_half_even (q * 10000) : ℚ) / 10000

/-- Python `round(q, 3)`. -/
def round3 (q : ℚ) : ℚ := (round_half_even (q * 1000) : ℚ) / 1000

/-! ### `app/services/document_processor.py` -/

/-- `DocumentProcessor.validate_file`: extension membership (on the lowercased
suffix) then size bound; returns `(is_valid, error_message)`. -/
def validate_file (cfg : Settings) (filename : String) (file_size : Nat) :
    Bool × Option String :=
  let file_ext := py_lower (pathSuffix filename)
  if file_ext ∉ cfg.ALLOWED_EXTENSIONS then
    (false, some ("File type " ++ file_ext ++ " not allowed. Allowed types: .txt, .pdf"))
  else if file_size > cfg.MAX_FILE_SIZE then
    (false, some "File size exceeds maximum allowed size of 10.0MB")
  else
    (true, none)

/-- `DocumentProcessor.save_file`: the generated name is the uuid4 hex (an
external random value, passed in) followed by the lowercased original
extension; the path joins it to the upload directory.  Returns
`(unique_filename, file_path)`. -/
def save_file (cfg : Settings) (uuid_hex : String) (original_filename : String) :
    String × String :=
  let file_ext := py_lower (pathSuffix original_filename)
  let unique_filename := uuid_hex ++ file_ext
  (unique_filename, cfg.UPLOAD_DIR ++ "/" ++ unique_filename)

/-- `DocumentProcessor.get_content_preview`: identity up to `max_length`
characters, else a truncation with an ellipsis marker. -/
def get_content_preview (text : String) (max_length : Nat) : String :=
  if text.length ≤ max_length then text else py_take text max_length ++ "..."

/-- `DocumentProcessor.split_text`: empty (after strip) input yields `[]`;
otherwise the external recursive splitter (oracle `splitter`) runs. -/
def split_text (splitter : String → List String) (text : String) : List String :=
  if py_strip text = "" then [] else splitter text

/-! ### `app/services/vector_store.py` — mock embedding and search

The ChromaDB collection is an external component (spec section 6).  We model its
observable contract: it stores entries tagged with metadata; a query returns, of
the entries matching the metadata filter, the `n_results` nearest ones in
ascending order of cosine distance; in a cosine-space collection the distance of
an entry to the query is `1 - cos_sim ∈ [0, 2]`.  Each `IndexEntry` below
carries its cosine distance to the query of the one search being modelled. -/

/-- One entry of the "knowledge_base" collection, together with its cosine
distance to the current query embedding. -/
structure IndexEntry where
  entry_id : String
  content : String
  document_id : Nat
  document_name : String
  user_id : Nat
  chunk_index : Nat
  distance : ℚ
deriving DecidableEq, Repr

/-- Ordering of index entries by distance to the query (nearest first). -/
def distLE (a b : IndexEntry) : Prop := a.distance ≤ b.distance

instance : DecidableRel distLE :=
  fun a b => inferInstanceAs (Decidable (a.distance ≤ b.distance))

instance : IsTotal IndexEntry distLE :=
  ⟨fun a b => le_total a.distance b.distance⟩

instance : IsTrans IndexEntry distLE :=
  ⟨fun _ _ _ h1 h2 => le_trans h1 h2⟩

/-- The collection's `query` contract: entries matching the `where` filter
(`user_id` equality), nearest first, at most `k` of them. -/
def collection_query (entries : List IndexEntry) (uid : Nat) (k : Nat) :
    List IndexEntry :=
  (List.insertionSort distLE (entries.filter fun e => e.user_id == uid)).take k

/-- `VectorStoreService._get_mock_embedding`: 1536 components, component `i`
being `(hash_bytes[i % len(hash_bytes)] / 255) * 2 - 1` over the SHA-256 digest
bytes of the text (the digest itself is computed by `hashlib`, an external
library; it enters as the 32-byte list `hash_bytes`). -/
def _get_mock_embedding (hash_bytes : List Nat) : List ℚ :=
  (List.range 1536).map fun i =>
    let byte_idx := i % hash_bytes.length
    ((hash_bytes.getD byte_idx 0 : ℚ) / 255) * 2 - 1

/-- Dot product of two equal-length vectors (used to exhibit anti-correlated
mock embeddings, i.e. cosine similarity below 0 and cosine distance above 1).
-/
def dotQ (a b : List ℚ) : ℚ := ((a.zip b).map fun p => p.1 * p.2).sum

/-- One formatted search hit, as built in `VectorStoreService.search` (the
`metadata` dict of a hit is flattened into its fields). -/
structure SearchHit where
  hit_id : String
  content : String
  document_id : Nat
  document_name : String
  user_id : Nat
  chunk_index : Nat
  relevance_score : ℚ
deriving DecidableEq, Repr

/-- The per-hit formatting step of `search`:
`relevance_score = round(1 - distance, 4)`. -/
def format_hit (e : IndexEntry) : SearchHit :=
  { hit_id := e.entry_id
  , content := e.content
  , document_id := e.document_id
  , document_name := e.document_name
  , user_id := e.user_id
  , chunk_index := e.chunk_index
  , relevance_score := round4 (1 - e.distance) }

/-- `search`'s clamping of the requested count:
`min(n_results, total_count) if total_count > 0 else 1`. -/
def actual_n_results (n_results total_count : Nat) : Nat :=
  if total_count > 0 then min n_results total_count else 1

/-- `VectorStoreService.search`: embed the query, clamp the requested count
against `collection.count()` (the whole collection, all users), query with the
`user_id` filter, and format each hit.  The surrounding `try/except` returns
`[]` on any failure; `failure` models an exception anywhere in the body. -/
def VectorStoreService.search (entries : List IndexEntry) (user_id : Nat)
    (n_results : Nat) (failure : Bool) : List SearchHit :=
  if failure then []
  else
    let total_count := entries.length
    let n := actual_n_results n_results total_count
    (collection_query entries user_id n).map format_hit

/-! ### `app/services/llm_service.py` -/

/-- Which LLM backend `LLMService._ensure_initialized` selected. -/
inductive LLMProvider
  | anthropic
  | openai
  | mock
deriving DecidableEq, Repr

/-- The backend-selection chain of `LLMService._ensure_initialized`
(`if/elif` on `settings.LLM_PROVIDER.lower()` and key truthiness; an empty
string key is falsy in Python). -/
def llm_select (cfg : Settings) : LLMProvider :=
  let provider := py_lower cfg.LLM_PROVIDER
  if provider = "anthropic" ∧ cfg.ANTHROPIC_API_KEY ≠ "" then .anthropic
  else if provider = "openai" ∧ cfg.OPENAI_API_KEY ≠ "" then .openai
  else if cfg.ANTHROPIC_API_KEY ≠ "" then .anthropic
  else if cfg.OPENAI_API_KEY ≠ "" then .openai
  else .mock

/-- The lazily-initialized state of `LLMService` (`_initialized`, `_provider`). -/
structure LLMState where
  initialized : Bool
  provider : Option LLMProvider
deriving DecidableEq, Repr

/-- `LLMService._ensure_initialized` as a state transformer: a no-op once
`_initialized` is set, otherwise runs the selection chain. -/
def LLMService.ensure_initialized (cfg : Settings) (st : LLMState) : LLMState :=
  if st.initialized then st
  else { initialized := true, provider := some (llm_select cfg) }

/-- `SourceDocument` (schemas/chat.py): one retrieval hit in a response. -/
structure SourceDocument where
  content : String
  document_name : String
  chunk_index : Nat
  relevance_score : ℚ
deriving DecidableEq, Repr

/-- Percent rendering with two decimals, as Python `f"{q:.2%}"` (used only
inside the context string; from the rounded basis points of `q`). -/
def formatPercent2 (q : ℚ) : String :=
  let bp := round_half_even (q * 10000)
  let sign := if bp < 0 then "-" else ""
  let a := bp.natAbs
  let whole := a / 100
  let frac := a % 100
  let fracStr := if frac < 10 then "0" ++ toString frac else toString frac
  sign ++ toString whole ++ "." ++ fracStr ++ "%"

/-- `LLMService._format_context`: empty string on no hits, else the rendered
entries (numbered from 1) joined by a separator line. -/
def _format_context (search_results : List SearchHit) : String :=
  if search_results.isEmpty then ""
  else
    String.intercalate "\n\n---\n\n" <|
      search_results.enum.map fun p =>
        "[Source " ++ toString (p.1 + 1) ++ ": " ++ p.2.document_name ++
          " (Relevance: " ++ formatPercent2 p.2.relevance_score ++ ")]\n" ++ p.2.content

/-- `LLMService._get_mock_response` (answer text of mock mode; literals
paraphrased without apostrophes, structure preserved: the no-context branch
apologizes, the other quotes the first 50 characters of the question and the
first 500 of the context). -/
def _get_mock_response (question context : String) : String :=
  if py_strip context = "" then
    "I do not have any relevant information in the uploaded documents to answer your question. Please upload documents that contain information related to your query."
  else
    "Based on the uploaded documents, I found relevant information to answer your question about " ++
      py_take question 50 ++ "... Key points: " ++ py_take context 500 ++
      "... Note: This is a mock response."

/-- The fixed system instruction of `answer_question` with the context block
interpolated at its `{context}` slot (text abridged; the claims only use that
the context is interpolated into a fixed template). -/
def system_prompt (context : String) : String :=
  "You are a helpful AI knowledge assistant. CONTEXT FROM DOCUMENTS:\n" ++
    context ++ "\n---\nPlease answer the users question based on the above context."

/-- The external outcomes `answer_question` depends on: the vector search
(which can itself raise, e.g. from its initialization step), and — when a real
backend is configured — the LLM invocation on the built messages. -/
structure LLMEnv where
  search_result : Except String (List SearchHit)
  llm : Option (String → String → Except String String)

/-- The `try`-block body of `LLMService.answer_question`: retrieve, format the
context, then either invoke the backend on (system prompt, question) or build
the mock response.  Any raise is an `Except.error` carrying `str(e)`. -/
def answer_question_body (env : LLMEnv) (question : String) :
    Except String (String × List SearchHit) := do
  let search_results ← env.search_result
  let context := _format_context search_results
  let answer ←
    match env.llm with
    | some invoke => invoke (system_prompt context) question
    | none => Except.ok (_get_mock_response question context)
  return (answer, search_results)

/-- The result dict of `answer_question`. -/
structure AnswerResult where
  answer : String
  sources : List SourceDocument
  processing_time : ℚ
  question : String
deriving DecidableEq, Repr

/-- The error answer built in the `except` branch of `answer_question`. -/
def error_answer (e : String) : String :=
  "I encountered an error while processing your question: " ++ e ++ ". Please try again."

/-- `LLMService.answer_question`: runs the body; on success formats the source
list (content truncated to 500 characters); on any exception returns the
explanatory answer with no sources.  `elapsed` is the wall-clock time
(external) measured at whichever return is reached.  Total by construction:
this function never raises. -/
def answer_question (env : LLMEnv) (question : String) (elapsed : ℚ) :
    AnswerResult :=
  match answer_question_body env question with
  | .ok (answer, search_results) =>
    { answer := answer
    , sources := search_results.map fun r =>
        { content := py_take r.content 500
        , document_name := r.document_name
        , chunk_index := r.chunk_index
        , relevance_score := r.relevance_score }
    , processing_time := round3 elapsed
    , question := question }
  | .error e =>
    { answer := error_answer e
    , sources := []
    , processing_time := round3 elapsed
    , question := question }

/-! ### `app/models/document.py` and `app/api/routes/documents.py` -/

/-- `DocumentStatus` (models/document.py). -/
inductive DocumentStatus
  | pending
  | processing
  | completed
  | failed
deriving DecidableEq, Repr

/-- A `documents` row.  Timestamps are abstract ticks (`Nat`). -/
structure Document where
  id : Nat
  filename : String
  original_filename : String
  file_path : String
  file_type : String
  file_size : Nat
  status : DocumentStatus
  chunk_count : Nat
  embedding_count : Nat
  content_preview : Option String
  error_message : Option String
  processed_at : Option Nat
  user_id : Nat
deriving DecidableEq, Repr

/-- A scheduled `process_document_background` task (its five arguments). -/
structure BgTask where
  document_id : Nat
  file_path : String
  file_type : String
  user_id : Nat
  document_name : String
deriving DecidableEq, Repr

/-- The reset block of `reprocess_document` (documents.py, lines 297-302):
status to `pending`, counts to 0, `error_message` and `processed_at` cleared.
`content_preview` is NOT touched by the source. -/
def reprocess_reset (doc : Document) : Document :=
  { doc with
      status := .pending
    , chunk_count := 0
    , embedding_count := 0
    , error_message := none
    , processed_at := none }

/-- The `POST /docs/{id}/reprocess` route: 404 unless a document with this id
and this owner exists; else purge its vector entries, reset the row, and
schedule one background task.  Returns the updated row set and the task. -/
def reprocess_document (docs : List Document) (document_id user_id : Nat) :
    Except Nat (List Document × BgTask) :=
  match docs.find? fun d => d.id == document_id && d.user_id == user_id with
  | none => .error 404
  | some document =>
    .ok
      ( docs.map fun d => if d.id == document_id && d.user_id == user_id then reprocess_reset d else d
      , { document_id := document.id
        , file_path := document.file_path
        , file_type := document.file_type
        , user_id := user_id
        , document_name := document.original_filename } )

/-! #### Upload (`upload_documents`, shared by `/docs/upload` and `/upload`) -/

/-- One file of a multipart upload request, together with the external
outcomes of handling it: `read_ok` (did `file.read()` succeed), `save_ok`
(did saving/row creation succeed), and the uuid4 hex drawn for it. -/
structure UploadFile where
  filename : String
  size : Nat
  read_ok : Bool
  save_ok : Bool
  uuid_hex : String
deriving DecidableEq, Repr

/-- A file attempt succeeds iff its bytes are read, it validates, and the
save/insert steps do not raise — exactly the cases in which the loop body
reaches `successful += 1`. -/
def upload_ok (cfg : Settings) (f : UploadFile) : Bool :=
  f.read_ok && (validate_file cfg f.filename f.size).1 && f.save_ok

/-- Accumulated effect of the upload loop. -/
structure UploadState where
  documents : List Document
  tasks : List BgTask
  successful : Nat
  failed : Nat
deriving Repr

/-- One iteration of the `for file in files` loop of `upload_documents`:
read, validate (failure counts and skips), save, create the `pending` row,
schedule the background task; any raise in the body counts as failed.  The
second component threads the autoincrement id. -/
def upload_process_file (cfg : Settings) (user_id : Nat)
    (acc : UploadState × Nat) (f : UploadFile) : UploadState × Nat :=
  let (s, next_id) := acc
  if !f.read_ok then ({ s with failed := s.failed + 1 }, next_id)
  else if !(validate_file cfg f.filename f.size).1 then
    ({ s with failed := s.failed + 1 }, next_id)
  else if !f.save_ok then ({ s with failed := s.failed + 1 }, next_id)
  else
    let file_ext := py_lower (pathSuffix f.filename)
    let sf := save_file cfg f.uuid_hex f.filename
    let doc : Document :=
      { id := next_id
      , filename := sf.1
      , original_filename := f.filename
      , file_path := sf.2
      , file_type := file_ext
      , file_size := f.size
      , status := .pending
      , chunk_count := 0
      , embedding_count := 0
      , content_preview := none
      , error_message := none
      , processed_at := none
      , user_id := user_id }
    let task : BgTask :=
      { document_id := next_id
      , file_path := sf.2
      , file_type := file_ext
      , user_id := user_id
      , document_name := f.filename }
    ( { documents := s.documents ++ [doc]
      , tasks := s.tasks ++ [task]
      , successful := s.successful + 1
      , failed := s.failed }
    , next_id + 1 )

/-- The `UploadResponse` payload. -/
structure UploadResponse where
  message : String
  documents : List Document
  total_uploaded : Nat
  successful : Nat
  failed : Nat
deriving Repr

/-- `upload_documents`: Bad-Request iff the file list is empty; otherwise fold
the loop body over the files and report counts.  Also returns the scheduled
background tasks.  `first_id` is the first autoincrement id the database will
hand out. -/
def upload_documents (cfg : Settings) (user_id : Nat) (files : List UploadFile)
    (first_id : Nat) : Except Nat (UploadResponse × List BgTask) :=
  if files.isEmpty then .error 400
  else
    let s := (files.foldl (upload_process_file cfg user_id)
      ({ documents := [], tasks := [], successful := 0, failed := 0 }, first_id)).1
    .ok
      ( { message := "Upload completed"
        , documents := s.documents
        , total_uploaded := files.length
        , successful := s.successful
        , failed := s.failed }
      , s.tasks )

/-! #### Background ingestion task (`process_document_background`) -/

/-- External outcomes one run of the background task depends on:
the text extraction (which may raise), the chunk splitter, the vector-store
insertion (which may raise), whether the failure-recording commit of the
`except` branch itself succeeds, and the clock value stored in `processed_at`. -/
structure BgEnv where
  extract : Except String String
  splitter : String → List String
  add_documents : Except String Nat
  record_failure_ok : Bool
  now : Nat

/-- The sequence of states `process_document_background` commits for a present
document: first `processing`, then — depending on the branch taken — the
`failed` state with its descriptive error, or the `completed` state with
counts, preview and timestamp.  When an exception is raised and the inner
failure-recording commit raises too, nothing further is committed (the source
swallows that second failure).  Total by construction: the task never lets an
exception propagate. -/
def bg_commits (env : BgEnv) (doc : Document) : List Document :=
  let d1 := { doc with status := .processing }
  match env.extract with
  | .error e =>
    if env.record_failure_ok then
      [d1, { d1 with status := .failed, error_message := some e }]
    else [d1]
  | .ok text =>
    if py_strip text = "" then
      [d1,
       { d1 with
           status := .failed
         , error_message := some "No text content could be extracted from the file" }]
    else
      let chunks := split_text env.splitter text
      if chunks.isEmpty then
        [d1,
         { d1 with
             status := .failed
           , error_message := some "Failed to split document into chunks" }]
      else
        match env.add_documents with
        | .error e =>
          if env.record_failure_ok then
            [d1, { d1 with status := .failed, error_message := some e }]
          else [d1]
        | .ok embedding_count =>
          [d1,
           { d1 with
               status := .completed
             , chunk_count := chunks.length
             , embedding_count := embedding_count
             , content_preview := some (get_content_preview text 500)
             , processed_at := some env.now }]

/-- The state of the row after one background run. -/
def bg_final (env : BgEnv) (doc : Document) : Document :=
  (bg_commits env doc).getLastD doc

/-! #### Lifecycle traces of one document row -/

/-- The operations that mutate a document row after creation: a background
ingestion run, or the reset block of the reprocess endpoint. -/
inductive DocOp
  | bg (env : BgEnv)
  | reprocess

/-- The states an operation commits to the row. -/
def DocOp.commits (doc : Document) : DocOp → List Document
  | .bg env => bg_commits env doc
  | .reprocess => [reprocess_reset doc]

/-- The committed states of a run of operations, in order. -/
def docTrace (doc : Document) : List DocOp → List Document
  | [] => []
  | op :: ops =>
    let cs := op.commits doc
    cs ++ docTrace (cs.getLastD doc) ops

/-- The routes only ever run a background task on a freshly created or freshly
reset row, i.e. one whose status is `pending` (upload creates the row
`pending` and schedules; reprocess resets to `pending` and schedules). -/
def WellScheduled (doc : Document) : List DocOp → Prop
  | [] => True
  | op :: ops =>
    (match op with
     | .bg _ => doc.status = .pending
     | .reprocess => True) ∧
    WellScheduled ((op.commits doc).getLastD doc) ops

/-- The status transitions the specification allows: `pending → processing`,
`processing → completed | failed`, and any state back to `pending` via
reprocess. -/
def allowedStep (s t : DocumentStatus) : Prop :=
  (s = .pending ∧ t = .processing) ∨
  (s = .processing ∧ (t = .completed ∨ t = .failed)) ∨
  t = .pending

/-! ### `app/api/routes/chat.py` — ChatMessage persistence and history -/

/-- The `sources` value stored on a `ChatMessage` row by `ask_question`:
`[s.model_dump() for s in result["sources"]] if result["sources"] else None`
— an empty source list is falsy, so it is stored as `None`. -/
def chat_saved_sources (sources : List SourceDocument) :
    Option (List SourceDocument) :=
  if sources.isEmpty then none else some sources

/-- A `chat_messages` row. -/
structure ChatMessage where
  id : Nat
  question : String
  answer : String
  sources : Option (List SourceDocument)
  processing_time : ℚ
  user_id : Nat
deriving DecidableEq, Repr

/-- The row `POST /ask` persists for one answered turn. -/
def ask_question_save (question : String) (res : AnswerResult)
    (user_id row_id : Nat) : ChatMessage :=
  { id := row_id
  , question := question
  , answer := res.answer
  , sources := chat_saved_sources res.sources
  , processing_time := res.processing_time
  , user_id := user_id }

/-- A `ChatHistoryItem` of `GET /ask/history`. -/
structure ChatHistoryItem where
  id : Nat
  question : String
  answer : String
  sources : Option (List SourceDocument)
  processing_time : ℚ
deriving DecidableEq, Repr

/-- The per-row conversion in `get_chat_history`: `sources = None` unless
`msg.sources` is truthy (neither `None` nor the empty list). -/
def history_item (msg : ChatMessage) : ChatHistoryItem :=
  { id := msg.id
  , question := msg.question
  , answer := msg.answer
  , sources :=
      match msg.sources with
      | none => none
      | some l => if l.isEmpty then none else some l
  , processing_time := msg.processing_time }

/-! ### Concrete example inputs (used by witnesses and counterexamples) -/

/-- A previously processed (failed) document row carrying a cached content
preview, owned by user 1. -/
def exDocC2 : Document :=
  { id := 1
  , filename := "ab12.txt"
  , original_filename := "notes.txt"
  , file_path := "./uploads/ab12.txt"
  , file_type := ".txt"
  , file_size := 9
  , status := .failed
  , chunk_count := 3
  , embedding_count := 3
  , content_preview := some "cached preview"
  , error_message := some "boom"
  , processed_at := some 7
  , user_id := 1 }

/-- An index entry of user 7 whose embedding is anti-correlated with the query:
cosine similarity -1/2, hence cosine distance 3/2. -/
def badEntry : IndexEntry :=
  { entry_id := "doc_1_chunk_0"
  , content := "anti-correlated chunk"
  , document_id := 1
  , document_name := "notes.txt"
  , user_id := 7
  , chunk_index := 0
  , distance := 3/2 }

/-- An index entry of user 7 close to the query. -/
def nearEntry : IndexEntry :=
  { entry_id := "doc_2_chunk_0"
  , content := "relevant chunk"
  , document_id := 2
  , document_name := "notes.txt"
  , user_id := 7
  , chunk_index := 0
  , distance := 1/10 }

/-- A freshly created document row (as `upload_documents` creates it). -/
def exFreshDoc : Document :=
  { id := 1
  , filename := "ab12.txt"
  , original_filename := "notes.txt"
  , file_path := "./uploads/ab12.txt"
  , file_type := ".txt"
  , file_size := 9
  , status := .pending
  , chunk_count := 0
  , embedding_count := 0
  , content_preview := none
  , error_message := none
  , processed_at := none
  , user_id := 1 }

/-- A background-task environment whose text extraction raises. -/
def exBgFail : BgEnv :=
  { extract := .error "boom"
  , splitter := fun _ => []
  , add_documents := .ok 0
  , record_failure_ok := true
  , now := 0 }

/-- A background-task environment whose extraction yields only whitespace. -/
def exBgWhitespace : BgEnv :=
  { extract := .ok "   "
  , splitter := fun t => [t]
  , add_documents := .ok 0
  , record_failure_ok := true
  , now := 0 }

/-- A background-task environment whose splitter produces no chunks. -/
def exBgNoChunks : BgEnv :=
  { extract := .ok "hello"
  , splitter := fun _ => []
  , add_documents := .ok 0
  , record_failure_ok := true
  , now := 0 }

/-- An answer-generation environment whose retrieval raises. -/
def exLLMEnvErr : LLMEnv :=
  { search_result := .error "boom"
  , llm := none }

/-- A valid upload attempt. -/
def exUploadGood : UploadFile :=
  { filename := "notes.txt"
  , size := 12
  , read_ok := true
  , save_ok := true
  , uuid_hex := "ab12" }

/-- An upload attempt with a disallowed extension. -/
def exUploadBadExt : UploadFile :=
  { filename := "slides.docx"
  , size := 12
  , read_ok := true
  , save_ok := true
  , uuid_hex := "cd34" }

/-- An answer result with an empty source list. -/
def exAnswerEmpty : AnswerResult :=
  { answer := "no info"
  , sources := []
  , processing_time := 0
  , question := "q" }

/-! ### Supporting lemmas about rounding -/

lemma floor_le_round_half_even (q : ℚ) : Int.floor q ≤ round_half_even q := by
  unfold round_half_even
  dsimp only
  split_ifs <;> omega

lemma round_half_even_le_floor_add_one (q : ℚ) :
    round_half_even q ≤ Int.floor q + 1 := by
  unfold round_half_even
  dsimp only
  split_ifs <;> omega

lemma round_half_even_mono {a b : ℚ} (h : a ≤ b) :
    round_half_even a ≤ round_half_even b := by
  have hf : Int.floor a ≤ Int.floor b := Int.floor_le_floor h
  rcases lt_or_eq_of_le hf with hlt | heq
  · calc round_half_even a ≤ Int.floor a + 1 := round_half_even_le_floor_add_one a
      _ ≤ Int.floor b := by omega
      _ ≤ round_half_even b := floor_le_round_half_even b
  · unfold round_half_even
    rw [← heq]
    dsimp only
    have hfr : a - (Int.floor a : ℚ) ≤ b - (Int.floor a : ℚ) := by linarith
    split_ifs <;> first | omega | linarith

lemma round_half_even_intCast (n : ℤ) : round_half_even (n : ℚ) = n := by
  unfold round_half_even
  dsimp only
  rw [Int.floor_intCast]
  have h : (n : ℚ) - (n : ℚ) = 0 := by ring
  rw [h]
  norm_num

lemma round4_mono {a b : ℚ} (h : a ≤ b) : round4 a ≤ round4 b := by
  unfold round4
  have h1 : round_half_even (a * 10000) ≤ round_half_even (b * 10000) :=
    round_half_even_mono (by nlinarith)
  have h2 : ((round_half_even (a * 10000) : ℤ) : ℚ) ≤ ((round_half_even (b * 10000) : ℤ) : ℚ) := by
    exact_mod_cast h1
  linarith

lemma round4_neg_one : round4 (-1) = -1 := by
  unfold round4
  have h : (-1 : ℚ) * 10000 = ((-10000 : ℤ) : ℚ) := by norm_num
  rw [h, round_half_even_intCast]
  norm_num

lemma round4_one : round4 1 = 1 := by
  unfold round4
  have h : (1 : ℚ) * 10000 = ((10000 : ℤ) : ℚ) := by norm_num
  rw [h, round_half_even_intCast]
  norm_num

lemma round4_range {q : ℚ} (h1 : -1 ≤ q) (h2 : q ≤ 1) :
    -1 ≤ round4 q ∧ round4 q ≤ 1 := by
  constructor
  · have := round4_mono h1
    rwa [round4_neg_one] at this
  · have := round4_mono h2
    rwa [round4_one] at this


/-! ### Claim theorems -/

/-- C6: the mock embedding is a pure function of the SHA-256 digest of the
text (determinism is the functionality of the definition, stated as the first
conjunct): it has exactly 1536 components, component `i` equals
`(digest_byte[i mod digest_length] / 255) * 2 - 1`, and every component lies
in `[-1, 1]`. -/
theorem C6_mock_embedding_deterministic_bounded (hash_bytes : List Nat)
    (hlen : hash_bytes.length = 32) (hbyte : ∀ b ∈ hash_bytes, b ≤ 255) :
    (∀ hb2 : List Nat, hash_bytes = hb2 →
      _get_mock_embedding hash_bytes = _get_mock_embedding hb2) ∧
    (_get_mock_embedding hash_bytes).length = 1536 ∧
    (∀ i, i < 1536 →
      (_get_mock_embedding hash_bytes).getD i 0 =
        ((hash_bytes.getD (i % 32) 0 : ℚ) / 255) * 2 - 1) ∧
    (∀ x ∈ _get_mock_embedding hash_bytes, -1 ≤ x ∧ x ≤ 1) := by
  refine ⟨fun hb2 h => by rw [h], by simp [_get_mock_embedding], ?_, ?_⟩
  · intro i hi
    have hl : ((List.range 1536).map fun i =>
        ((hash_bytes.getD (i % hash_bytes.length) 0 : ℚ) / 255) * 2 - 1).length = 1536 := by
      simp
    rw [_get_mock_embedding, List.getD_eq_getElem _ _ (by simp [hi])]
    simp [hi, hlen]
  · intro x hx
    rw [_get_mock_embedding] at hx
    simp only [List.mem_map, List.mem_range] at hx
    obtain ⟨i, _, rfl⟩ := hx
    have hb : hash_bytes.getD (i % hash_bytes.length) 0 ≤ 255 := by
      rcases Nat.lt_or_ge (i % hash_bytes.length) hash_bytes.length with h | h
      · rw [List.getD_eq_getElem _ _ h]
        exact hbyte _ (List.getElem_mem h)
      · rw [List.getD_eq_default _ _ h]
        omega
    have h1 : (0 : ℚ) ≤ (hash_bytes.getD (i % hash_bytes.length) 0 : ℚ) :=
      Nat.cast_nonneg _
    have h2 : ((hash_bytes.getD (i % hash_bytes.length) 0 : ℕ) : ℚ) ≤ 255 := by
      exact_mod_cast hb
    constructor <;> dsimp only
    · linarith
    · linarith

/-- Witness for C6 at a concrete 32-byte digest. -/
theorem C6_witness :
    (∀ hb2 : List Nat, List.range 32 = hb2 →
      _get_mock_embedding (List.range 32) = _get_mock_embedding hb2) ∧
    (_get_mock_embedding (List.range 32)).length = 1536 ∧
    (∀ i, i < 1536 →
      (_get_mock_embedding (List.range 32)).getD i 0 =
        (((List.range 32).getD (i % 32) 0 : ℚ) / 255) * 2 - 1) ∧
    (∀ x ∈ _get_mock_embedding (List.range 32), -1 ≤ x ∧ x ≤ 1) :=
  C6_mock_embedding_deterministic_bounded (List.range 32) (by decide)
    (by decide)

/-- C7: the backend-selection chain of `LLMService._ensure_initialized`
follows exactly the stated preference order, and runs only on first use. -/
theorem C7_backend_selection_order (cfg : Settings) :
    ((py_lower cfg.LLM_PROVIDER = "anthropic" ∧ cfg.ANTHROPIC_API_KEY ≠ "") →
      llm_select cfg = .anthropic) ∧
    (¬(py_lower cfg.LLM_PROVIDER = "anthropic" ∧ cfg.ANTHROPIC_API_KEY ≠ "") →
      (py_lower cfg.LLM_PROVIDER = "openai" ∧ cfg.OPENAI_API_KEY ≠ "") →
      llm_select cfg = .openai) ∧
    (¬(py_lower cfg.LLM_PROVIDER = "anthropic" ∧ cfg.ANTHROPIC_API_KEY ≠ "") →
      ¬(py_lower cfg.LLM_PROVIDER = "openai" ∧ cfg.OPENAI_API_KEY ≠ "") →
      cfg.ANTHROPIC_API_KEY ≠ "" → llm_select cfg = .anthropic) ∧
    (¬(py_lower cfg.LLM_PROVIDER = "anthropic" ∧ cfg.ANTHROPIC_API_KEY ≠ "") →
      ¬(py_lower cfg.LLM_PROVIDER = "openai" ∧ cfg.OPENAI_API_KEY ≠ "") →
      cfg.ANTHROPIC_API_KEY = "" → cfg.OPENAI_API_KEY ≠ "" →
      llm_select cfg = .openai) ∧
    (cfg.ANTHROPIC_API_KEY = "" → cfg.OPENAI_API_KEY = "" →
      llm_select cfg = .mock) ∧
    (∀ st : LLMState, ¬st.initialized = true →
      LLMService.ensure_initialized cfg st =
        { initialized := true, provider := some (llm_select cfg) }) ∧
    (∀ st : LLMState, st.initialized = true →
      LLMService.ensure_initialized cfg st = st) := by
  refine ⟨?_, ?_, ?_, ?_, ?_, ?_, ?_⟩
  · intro h
    unfold llm_select
    rw [if_pos h]
  · intro h1 h2
    unfold llm_select
    rw [if_neg h1, if_pos h2]
  · intro h1 h2 h3
    unfold llm_select
    rw [if_neg h1, if_neg h2, if_pos h3]
  · intro h1 h2 h3 h4
    unfold llm_select
    rw [if_neg h1, if_neg h2, if_neg (by simp [h3]), if_pos h4]
  · intro h1 h2
    unfold llm_select
    rw [if_neg (by simp [h1]), if_neg (by simp [h2]), if_neg (by simp [h1]),
      if_neg (by simp [h2])]
  · intro st h
    unfold LLMService.ensure_initialized
    rw [if_neg h]
  · intro st h
    unfold LLMService.ensure_initialized
    rw [if_pos h]

/-- Witness for C7: default settings with only an Anthropic key select the
Anthropic backend; with no key at all, mock mode. -/
theorem C7_witness :
    llm_select { defaultSettings with ANTHROPIC_API_KEY := "sk-ant" } =
      .anthropic ∧
    llm_select defaultSettings = .mock := by
  constructor
  · exact (C7_backend_selection_order
      { defaultSettings with ANTHROPIC_API_KEY := "sk-ant" }).1 (by decide)
  · exact (C7_backend_selection_order defaultSettings).2.2.2.2.1 rfl rfl

/-- C9: `validate_file` checks membership of the lowercased suffix (so
uppercase extensions like `FILE.TXT` and `doc.PDF` validate), and `save_file`
generates a name carrying the lowercased extension. -/
theorem C9_extension_case_insensitive :
    (∀ (cfg : Settings) (name : String) (size : Nat),
      (validate_file cfg name size).1 = true ↔
        (py_lower (pathSuffix name) ∈ cfg.ALLOWED_EXTENSIONS ∧
          size ≤ cfg.MAX_FILE_SIZE)) ∧
    (validate_file defaultSettings "FILE.TXT" 10).1 = true ∧
    (validate_file defaultSettings "doc.PDF" 10).1 = true ∧
    (∀ (cfg : Settings) (hex orig : String),
      (save_file cfg hex orig).1 = hex ++ py_lower (pathSuffix orig)) ∧
    (save_file defaultSettings "3f2a" "FILE.TXT").1 = "3f2a.txt" := by
  refine ⟨?_, by decide, by decide, fun cfg hex orig => rfl, by decide⟩
  intro cfg name size
  rcases Decidable.em (py_lower (pathSuffix name) ∈ cfg.ALLOWED_EXTENSIONS) with hm | hm
  · rcases Nat.lt_or_ge cfg.MAX_FILE_SIZE size with hs | hs
    · have hns : ¬size ≤ cfg.MAX_FILE_SIZE := by omega
      simp [validate_file, hm, hs, hns]
    · have hns : ¬cfg.MAX_FILE_SIZE < size := by omega
      simp [validate_file, hm, hns]
      omega
  · simp [validate_file, hm]

/-- C10: an answered turn with zero retrieved sources is persisted with
`sources = None` (the empty list is falsy in the source expression), and the
history conversion therefore also yields `None` for that row. -/
theorem C10_empty_sources_stored_null (question : String) (res : AnswerResult)
    (user_id row_id : Nat) (h : res.sources = []) :
    (ask_question_save question res user_id row_id).sources = none ∧
    (history_item (ask_question_save question res user_id row_id)).sources =
      none := by
  constructor <;> simp [ask_question_save, chat_saved_sources, history_item, h]

/-- Witness for C10 at a concrete empty-source answer. -/
theorem C10_witness :
    (ask_question_save "q" exAnswerEmpty 1 5).sources = none ∧
    (history_item (ask_question_save "q" exAnswerEmpty 1 5)).sources = none :=
  C10_empty_sources_stored_null "q" exAnswerEmpty 1 5 rfl

/-- C2 counterexample: reprocessing a document whose row carries a content
preview leaves the preview in place — the reset block of `reprocess_document`
never touches `content_preview`, contradicting the claim that the preview is
cleared. -/
theorem C2_counterexample :
    ∃ d, reprocess_document [exDocC2] 1 1 =
        .ok ([d],
          { document_id := 1
          , file_path := "./uploads/ab12.txt"
          , file_type := ".txt"
          , user_id := 1
          , document_name := "notes.txt" }) ∧
      d.status = .pending ∧ d.chunk_count = 0 ∧ d.embedding_count = 0 ∧
      d.error_message = none ∧ d.content_preview = some "cached preview" := by
  exact ⟨reprocess_reset exDocC2, rfl, rfl, rfl, rfl, rfl, rfl⟩

/-- C2 amended: for every reprocess request on a document owned by the caller,
the row is reset to status `pending` with chunk and embedding counts zeroed and
the error message and processed timestamp cleared, and ingestion is
re-scheduled — but the content preview is left unchanged (and the request 404s
when no owned document matches). -/
theorem C2_reprocess_resets_except_preview :
    (∀ doc : Document,
      (reprocess_reset doc).status = .pending ∧
      (reprocess_reset doc).chunk_count = 0 ∧
      (reprocess_reset doc).embedding_count = 0 ∧
      (reprocess_reset doc).error_message = none ∧
      (reprocess_reset doc).processed_at = none ∧
      (reprocess_reset doc).content_preview = doc.content_preview) ∧
    (∀ (docs : List Document) (did uid : Nat) (d : Document),
      docs.find? (fun x => x.id == did && x.user_id == uid) = some d →
      reprocess_document docs did uid =
        .ok
          ( docs.map fun x =>
              if x.id == did && x.user_id == uid then reprocess_reset x else x
          , { document_id := d.id
            , file_path := d.file_path
            , file_type := d.file_type
            , user_id := uid
            , document_name := d.original_filename } )) ∧
    (∀ (docs : List Document) (did uid : Nat),
      docs.find? (fun x => x.id == did && x.user_id == uid) = none →
      reprocess_document docs did uid = .error 404) := by
  refine ⟨fun doc => ⟨rfl, rfl, rfl, rfl, rfl, rfl⟩, ?_, ?_⟩
  · intro docs did uid d h
    unfold reprocess_document
    rw [h]
  · intro docs did uid h
    unfold reprocess_document
    rw [h]

/-- Witness for C2's amended theorem on the concrete document row. -/
theorem C2_witness :
    reprocess_document [exDocC2] 1 1 =
      .ok
        ( [exDocC2].map fun x =>
            if x.id == 1 && x.user_id == 1 then reprocess_reset x else x
        , { document_id := exDocC2.id
          , file_path := exDocC2.file_path
          , file_type := exDocC2.file_type
          , user_id := 1
          , document_name := exDocC2.original_filename } ) :=
  C2_reprocess_resets_except_preview.2.1 [exDocC2] 1 1 exDocC2 (by decide)

/-- Entries returned by a collection query come from the collection and match
the `user_id` filter. -/
lemma mem_collection_query {entries : List IndexEntry} {uid k : Nat}
    {e : IndexEntry} (h : e ∈ collection_query entries uid k) :
    e ∈ entries ∧ e.user_id = uid := by
  unfold collection_query at h
  have h1 := List.mem_of_mem_take h
  rw [List.mem_insertionSort] at h1
  have h2 := List.mem_filter.mp h1
  refine ⟨h2.1, ?_⟩
  simpa using h2.2

/-- A collection query returns its entries sorted by ascending distance. -/
lemma collection_query_sorted (entries : List IndexEntry) (uid k : Nat) :
    List.Pairwise distLE (collection_query entries uid k) := by
  unfold collection_query
  exact List.Pairwise.sublist (List.take_sublist _ _)
    (List.sorted_insertionSort distLE _)

/-- The mock embedding of a constant 32-byte digest is a constant vector. -/
lemma mock_embedding_replicate (cb : Nat) :
    _get_mock_embedding (List.replicate 32 cb) =
      List.replicate 1536 (((cb : ℚ) / 255) * 2 - 1) := by
  unfold _get_mock_embedding
  rw [List.eq_replicate_iff]
  refine ⟨by simp, ?_⟩
  intro b hb
  simp only [List.mem_map, List.mem_range] at hb
  obtain ⟨i, hi, rfl⟩ := hb
  have hlen : (List.replicate 32 cb).length = 32 := by simp
  have hlt : i % (List.replicate 32 cb).length < (List.replicate 32 cb).length := by
    rw [hlen]
    exact Nat.mod_lt _ (by norm_num)
  rw [List.getD_eq_getElem _ _ hlt, List.getElem_replicate]

/-- Dot product of two constant vectors. -/
lemma dotQ_replicate (n : Nat) (x y : ℚ) :
    dotQ (List.replicate n x) (List.replicate n y) = n * (x * y) := by
  induction n with
  | zero => simp [dotQ]
  | succ n ih =>
    unfold dotQ at ih ⊢
    simp only [List.replicate_succ, List.zip_cons_cons, List.map_cons,
      List.sum_cons, ih]
    push_cast
    ring

/-- Two valid 32-byte digests whose mock embeddings are anti-correlated: their
dot product is negative, so their cosine similarity is negative and the cosine
distance between them exceeds 1 — the distances fed to `search` genuinely
range beyond 1. -/
lemma mock_embeddings_can_anticorrelate :
    dotQ (_get_mock_embedding (List.replicate 32 200))
      (_get_mock_embedding (List.replicate 32 50)) < 0 := by
  rw [mock_embedding_replicate, mock_embedding_replicate, dotQ_replicate]
  norm_num

/-- C1 counterexample: a search over a cosine-space collection can return a
hit with a negative relevance score.  The entry's cosine distance is `3/2`
(cosine similarity `-1/2`, an anti-correlated embedding — cosine distance
ranges over `[0, 2]`), and `round(1 - 3/2, 4) = -0.5 ∉ [0, 1]`. -/
theorem C1_counterexample :
    ∃ r, VectorStoreService.search [badEntry] 7 5 false = [r] ∧
      r.relevance_score < 0 := by
  refine ⟨format_hit badEntry, rfl, ?_⟩
  show round4 (1 - 3/2) < 0
  have h : (1 : ℚ) - 3/2 = -1/2 := by norm_num
  rw [h]
  unfold round4 round_half_even
  norm_num

/-- C1 amended: for every search call over a cosine-space collection (all
distances in `[0, 2]`), each returned relevance score — computed as
`round(1 - cosine_distance, 4)` — lies in `[-1, 1]`, and the hits are ordered
from highest to lowest relevance score (nearest first). -/
theorem C1_scores_bounded_and_descending (entries : List IndexEntry)
    (uid n : Nat) (failure : Bool)
    (hd : ∀ e ∈ entries, 0 ≤ e.distance ∧ e.distance ≤ 2) :
    (∀ r ∈ VectorStoreService.search entries uid n failure,
      -1 ≤ r.relevance_score ∧ r.relevance_score ≤ 1) ∧
    List.Pairwise (fun a b => b.relevance_score ≤ a.relevance_score)
      (VectorStoreService.search entries uid n failure) := by
  cases failure
  · constructor
    · intro r hr
      simp only [VectorStoreService.search, Bool.false_eq_true, if_false,
        List.mem_map] at hr
      obtain ⟨e, he, rfl⟩ := hr
      have hme := (mem_collection_query he).1
      have hbound := hd e hme
      show -1 ≤ round4 (1 - e.distance) ∧ round4 (1 - e.distance) ≤ 1
      exact round4_range (by linarith [hbound.2]) (by linarith [hbound.1])
    · simp only [VectorStoreService.search, Bool.false_eq_true, if_false]
      rw [List.pairwise_map]
      refine (collection_query_sorted entries uid _).imp ?_
      intro a b hab
      show round4 (1 - b.distance) ≤ round4 (1 - a.distance)
      have hd' : a.distance ≤ b.distance := hab
      exact round4_mono (by linarith)
  · constructor
    · intro r hr
      simp [VectorStoreService.search] at hr
    · simp [VectorStoreService.search]

/-- Witness for C1's amended theorem on a two-entry collection. -/
theorem C1_witness :
    (∀ r ∈ VectorStoreService.search [badEntry, nearEntry] 7 5 false,
      -1 ≤ r.relevance_score ∧ r.relevance_score ≤ 1) ∧
    List.Pairwise (fun a b => b.relevance_score ≤ a.relevance_score)
      (VectorStoreService.search [badEntry, nearEntry] 7 5 false) :=
  C1_scores_bounded_and_descending [badEntry, nearEntry] 7 5 false
    (by
      intro e he
      simp only [List.mem_cons, List.not_mem_nil, or_false] at he
      rcases he with rfl | rfl <;> constructor <;> norm_num [badEntry, nearEntry])

/-- C8: the count requested from the index is the requested count clamped to
the total number of indexed entries (with the index queried for 1 when the
collection is empty, and for at least 1 whenever entries exist and at least
one result was requested), and the query's `user_id` filter means every hit
belongs to the caller. -/
theorem C8_clamp_and_user_isolation (entries : List IndexEntry)
    (uid n : Nat) (failure : Bool) :
    actual_n_results n entries.length =
      (if 0 < entries.length then min n entries.length else 1) ∧
    VectorStoreService.search entries uid n failure =
      (if failure then []
       else (collection_query entries uid
          (actual_n_results n entries.length)).map format_hit) ∧
    (0 < entries.length → 1 ≤ n → 1 ≤ actual_n_results n entries.length) ∧
    (∀ r ∈ VectorStoreService.search entries uid n failure,
      r.user_id = uid) := by
  refine ⟨rfl, ?_, ?_, ?_⟩
  · cases failure <;> rfl
  · intro h1 h2
    unfold actual_n_results
    rw [if_pos h1]
    omega
  · intro r hr
    cases failure
    · simp only [VectorStoreService.search, Bool.false_eq_true, if_false,
        List.mem_map] at hr
      obtain ⟨e, he, rfl⟩ := hr
      exact (mem_collection_query he).2
    · simp [VectorStoreService.search] at hr

/-- Witness for C8 on a concrete collection holding entries of two users. -/
theorem C8_witness :
    1 ≤ actual_n_results 5
      ([nearEntry, { nearEntry with user_id := 9 }] : List IndexEntry).length ∧
    (∀ r ∈ VectorStoreService.search
        [nearEntry, { nearEntry with user_id := 9 }] 7 5 false,
      r.user_id = 7) :=
  ⟨(C8_clamp_and_user_isolation [nearEntry, { nearEntry with user_id := 9 }]
      7 5 false).2.2.1 (by decide) (by decide),
   (C8_clamp_and_user_isolation [nearEntry, { nearEntry with user_id := 9 }]
      7 5 false).2.2.2⟩

/-- C3: `answer_question` is total — whatever the outcomes of retrieval and
LLM invocation, it returns a well-formed result carrying the original
question and the elapsed time rounded to 3 decimals; when any step of the
body raises with message `e`, the answer is the explanatory error string for
`e` and the source list is empty (in particular a retrieval failure is such a
raise); on success the answer is the generated one and each source is the
truncated retrieval hit. -/
theorem C3_answer_question_never_raises (env : LLMEnv) (question : String)
    (elapsed : ℚ) :
    (answer_question env question elapsed).question = question ∧
    (answer_question env question elapsed).processing_time = round3 elapsed ∧
    (∀ e, answer_question_body env question = .error e →
      (answer_question env question elapsed).answer = error_answer e ∧
      (answer_question env question elapsed).sources = []) ∧
    (∀ e, env.search_result = .error e →
      answer_question_body env question = .error e) ∧
    (∀ answer results,
      answer_question_body env question = .ok (answer, results) →
      (answer_question env question elapsed).answer = answer ∧
      (answer_question env question elapsed).sources = results.map fun r =>
        { content := py_take r.content 500
        , document_name := r.document_name
        , chunk_index := r.chunk_index
        , relevance_score := r.relevance_score }) := by
  refine ⟨?_, ?_, ?_, ?_, ?_⟩
  · unfold answer_question
    cases answer_question_body env question with
    | ok v => rfl
    | error e => rfl
  · unfold answer_question
    cases answer_question_body env question with
    | ok v => rfl
    | error e => rfl
  · intro e h
    unfold answer_question
    rw [h]
    exact ⟨rfl, rfl⟩
  · intro e h
    unfold answer_question_body
    rw [h]
    rfl
  · intro answer results h
    unfold answer_question
    rw [h]
    exact ⟨rfl, rfl⟩

/-- Witness for C3: a retrieval failure still yields a well-formed result. -/
theorem C3_witness :
    (answer_question exLLMEnvErr "what is in my notes" (1/2)).question =
      "what is in my notes" ∧
    (answer_question exLLMEnvErr "what is in my notes" (1/2)).answer =
      error_answer "boom" ∧
    (answer_question exLLMEnvErr "what is in my notes" (1/2)).sources = [] := by
  have h := C3_answer_question_never_raises exLLMEnvErr "what is in my notes"
    (1/2)
  have hbody := h.2.2.2.1 "boom" rfl
  have herr := h.2.2.1 "boom" hbody
  exact ⟨h.1, herr.1, herr.2⟩

/-- Effect of the upload loop on the accumulated state: counters split the
files by `upload_ok`, created rows track exactly the successful files, rows
and tasks are appended in lockstep, and every created row is `pending` with
zero counts and owned by the caller. -/
lemma upload_foldl_spec (cfg : Settings) (uid : Nat) (files : List UploadFile) :
    ∀ (s : UploadState) (nid : Nat),
      ((files.foldl (upload_process_file cfg uid) (s, nid)).1.successful =
        s.successful + files.countP (upload_ok cfg)) ∧
      ((files.foldl (upload_process_file cfg uid) (s, nid)).1.failed =
        s.failed + files.countP fun f => !(upload_ok cfg f)) ∧
      ((files.foldl (upload_process_file cfg uid) (s, nid)).1.documents.map
          Document.original_filename =
        s.documents.map Document.original_filename ++
          (files.filter (upload_ok cfg)).map UploadFile.filename) ∧
      ((files.foldl (upload_process_file cfg uid) (s, nid)).1.documents.length =
        s.documents.length + files.countP (upload_ok cfg)) ∧
      ((files.foldl (upload_process_file cfg uid) (s, nid)).1.tasks.length =
        s.tasks.length + files.countP (upload_ok cfg)) ∧
      (s.tasks.map BgTask.document_id = s.documents.map Document.id →
        (files.foldl (upload_process_file cfg uid) (s, nid)).1.tasks.map
            BgTask.document_id =
          (files.foldl (upload_process_file cfg uid) (s, nid)).1.documents.map
            Document.id) ∧
      ((∀ d ∈ s.documents,
          d.status = .pending ∧ d.user_id = uid ∧
          d.chunk_count = 0 ∧ d.embedding_count = 0) →
        ∀ d ∈ (files.foldl (upload_process_file cfg uid) (s, nid)).1.documents,
          d.status = .pending ∧ d.user_id = uid ∧
          d.chunk_count = 0 ∧ d.embedding_count = 0) := by
  induction files with
  | nil =>
    intro s nid
    simp
  | cons f fs ih =>
    intro s nid
    have hstep :
        List.foldl (upload_process_file cfg uid) (s, nid) (f :: fs) =
        List.foldl (upload_process_file cfg uid)
          (upload_process_file cfg uid (s, nid) f) fs := rfl
    by_cases hgood : upload_ok cfg f = true
    · have hr : f.read_ok = true := by
        have := hgood
        unfold upload_ok at this
        exact (Bool.and_eq_true _ _ |>.mp
          ((Bool.and_eq_true _ _ |>.mp this).1)).1
      have hv : (validate_file cfg f.filename f.size).1 = true := by
        have := hgood
        unfold upload_ok at this
        exact (Bool.and_eq_true _ _ |>.mp
          ((Bool.and_eq_true _ _ |>.mp this).1)).2
      have hsv : f.save_ok = true := by
        have := hgood
        unfold upload_ok at this
        exact (Bool.and_eq_true _ _ |>.mp this).2
      have hs1 : upload_process_file cfg uid (s, nid) f =
          ( { documents := s.documents ++
                [{ id := nid
                 , filename := (save_file cfg f.uuid_hex f.filename).1
                 , original_filename := f.filename
                 , file_path := (save_file cfg f.uuid_hex f.filename).2
                 , file_type := py_lower (pathSuffix f.filename)
                 , file_size := f.size
                 , status := .pending
                 , chunk_count := 0
                 , embedding_count := 0
                 , content_preview := none
                 , error_message := none
                 , processed_at := none
                 , user_id := uid }]
            , tasks := s.tasks ++
                [{ document_id := nid
                 , file_path := (save_file cfg f.uuid_hex f.filename).2
                 , file_type := py_lower (pathSuffix f.filename)
                 , user_id := uid
                 , document_name := f.filename }]
            , successful := s.successful + 1
            , failed := s.failed }
          , nid + 1 ) := by
        simp [upload_process_file, hr, hv, hsv]
      obtain ⟨ih1, ih2, ih3, ih4, ih5, ih6, ih7⟩ :=
        ih { documents := s.documents ++
                [{ id := nid
                 , filename := (save_file cfg f.uuid_hex f.filename).1
                 , original_filename := f.filename
                 , file_path := (save_file cfg f.uuid_hex f.filename).2
                 , file_type := py_lower (pathSuffix f.filename)
                 , file_size := f.size
                 , status := .pending
                 , chunk_count := 0
                 , embedding_count := 0
                 , content_preview := none
                 , error_message := none
                 , processed_at := none
                 , user_id := uid }]
           , tasks := s.tasks ++
                [{ document_id := nid
                 , file_path := (save_file cfg f.uuid_hex f.filename).2
                 , file_type := py_lower (pathSuffix f.filename)
                 , user_id := uid
                 , document_name := f.filename }]
           , successful := s.successful + 1
           , failed := s.failed } (nid + 1)
      rw [hstep, hs1]
      refine ⟨?_, ?_, ?_, ?_, ?_, ?_, ?_⟩
      · rw [ih1]
        simp [List.countP_cons, hgood]
        omega
      · rw [ih2]
        simp [List.countP_cons, hgood]
      · rw [ih3]
        simp [List.filter_cons, hgood]
      · rw [ih4]
        simp [List.countP_cons, hgood]
        omega
      · rw [ih5]
        simp [List.countP_cons, hgood]
        omega
      · intro hlock
        refine ih6 ?_
        simp [hlock]
      · intro hall
        refine ih7 ?_
        intro d hd
        rcases List.mem_append.mp hd with hd | hd
        · exact hall d hd
        · simp only [List.mem_singleton] at hd
          subst hd
          exact ⟨rfl, rfl, rfl, rfl⟩
    · have hgood' : upload_ok cfg f = false := by
        simpa using hgood
      have hs1 : upload_process_file cfg uid (s, nid) f =
          ({ s with failed := s.failed + 1 }, nid) := by
        unfold upload_ok at hgood'
        unfold upload_process_file
        rcases hr : f.read_ok with _ | _
        · simp [hr]
        · rcases hv : (validate_file cfg f.filename f.size).1 with _ | _
          · simp [hr, hv]
          · rcases hsv : f.save_ok with _ | _
            · simp [hr, hv, hsv]
            · rw [hr, hv, hsv] at hgood'
              simp at hgood'
      obtain ⟨ih1, ih2, ih3, ih4, ih5, ih6, ih7⟩ :=
        ih { s with failed := s.failed + 1 } nid
      rw [hstep, hs1]
      refine ⟨?_, ?_, ?_, ?_, ?_, ?_, ?_⟩
      · rw [ih1]
        simp [List.countP_cons, hgood']
      · rw [ih2]
        simp [List.countP_cons, hgood']
        omega
      · rw [ih3]
        simp [List.filter_cons, hgood']
      · rw [ih4]
        simp [List.countP_cons, hgood']
      · rw [ih5]
        simp [List.countP_cons, hgood']
      · exact ih6
      · exact ih7

/-- The two ways a file attempt can be counted partition the batch. -/
lemma countP_ok_add_not_ok {α : Type} (p : α → Bool) (l : List α) :
    l.countP p + l.countP (fun a => !p a) = l.length := by
  induction l with
  | nil => simp
  | cons a l ih =>
    by_cases h : p a <;> simp [List.countP_cons, h] <;> omega

/-- C4: uploading rejects with 400 exactly when no file is supplied; otherwise
files are processed independently — the response (HTTP 200 regardless of
per-file failures) reports the batch size, the number of successful files and
the number of failed ones (summing to the batch size), lists exactly the rows
created for the successful files (each `pending`, zero counts, owned by the
caller), and one background task is scheduled per created row, in lockstep. -/
theorem C4_upload_per_file_independence (cfg : Settings) (uid : Nat)
    (files : List UploadFile) (first_id : Nat) :
    (files = [] → upload_documents cfg uid files first_id = .error 400) ∧
    (files ≠ [] → ∃ resp tasks,
      upload_documents cfg uid files first_id = .ok (resp, tasks) ∧
      resp.total_uploaded = files.length ∧
      resp.successful = files.countP (upload_ok cfg) ∧
      resp.failed = files.countP (fun f => !(upload_ok cfg f)) ∧
      resp.successful + resp.failed = files.length ∧
      resp.documents.length = resp.successful ∧
      tasks.length = resp.successful ∧
      (∀ d ∈ resp.documents,
        d.status = .pending ∧ d.user_id = uid ∧
        d.chunk_count = 0 ∧ d.embedding_count = 0) ∧
      resp.documents.map Document.original_filename =
        (files.filter (upload_ok cfg)).map UploadFile.filename ∧
      tasks.map BgTask.document_id = resp.documents.map Document.id) := by
  constructor
  · intro h
    subst h
    rfl
  · intro h
    obtain ⟨h1, h2, h3, h4, h5, h6, h7⟩ :=
      upload_foldl_spec cfg uid files
        { documents := [], tasks := [], successful := 0, failed := 0 } first_id
    simp only [List.map_nil, List.nil_append, List.length_nil, Nat.zero_add]
      at h1 h2 h3 h4 h5
    have hne : files.isEmpty = false := by
      cases files with
      | nil => exact absurd rfl h
      | cons a l => rfl
    refine
      ⟨{ message := "Upload completed"
       , documents := (files.foldl (upload_process_file cfg uid)
          ({ documents := [], tasks := [], successful := 0, failed := 0 },
            first_id)).1.documents
       , total_uploaded := files.length
       , successful := (files.foldl (upload_process_file cfg uid)
          ({ documents := [], tasks := [], successful := 0, failed := 0 },
            first_id)).1.successful
       , failed := (files.foldl (upload_process_file cfg uid)
          ({ documents := [], tasks := [], successful := 0, failed := 0 },
            first_id)).1.failed }
      , (files.foldl (upload_process_file cfg uid)
          ({ documents := [], tasks := [], successful := 0, failed := 0 },
            first_id)).1.tasks
      , ?_, rfl, h1, h2, ?_, ?_, ?_, h7 (by simp), h3, h6 rfl⟩
    · unfold upload_documents
      rw [hne]
      rfl
    · rw [h1, h2]
      exact countP_ok_add_not_ok (upload_ok cfg) files
    · rw [h4, h1]
    · rw [h5, h1]

/-- Witness for C4: one valid `.txt` file and one `.docx` file — the valid one
creates a pending row and a task, the invalid one only increments `failed`. -/
theorem C4_witness :
    ∃ resp tasks,
      upload_documents defaultSettings 1 [exUploadGood, exUploadBadExt] 1 =
        .ok (resp, tasks) ∧
      resp.total_uploaded = 2 ∧
      resp.successful =
        [exUploadGood, exUploadBadExt].countP (upload_ok defaultSettings) ∧
      resp.failed = [exUploadGood, exUploadBadExt].countP
        (fun f => !(upload_ok defaultSettings f)) ∧
      resp.successful + resp.failed = 2 ∧
      resp.documents.length = resp.successful ∧
      tasks.length = resp.successful ∧
      (∀ d ∈ resp.documents,
        d.status = .pending ∧ d.user_id = 1 ∧
        d.chunk_count = 0 ∧ d.embedding_count = 0) ∧
      resp.documents.map Document.original_filename =
        ([exUploadGood, exUploadBadExt].filter
          (upload_ok defaultSettings)).map UploadFile.filename ∧
      tasks.map BgTask.document_id = resp.documents.map Document.id :=
  (C4_upload_per_file_independence defaultSettings 1
    [exUploadGood, exUploadBadExt] 1).2 (by decide)

/-- `getLastD` of a nonempty list is a member. -/
lemma getLastD_mem {α : Type} : ∀ (l : List α) (d : α), l ≠ [] → l.getLastD d ∈ l
  | [], _, h => absurd rfl h
  | [a], d, _ => by simp
  | a :: b :: t, d, _ => by
    have hm := getLastD_mem (b :: t) a (by simp)
    have hcons : (a :: b :: t).getLastD d = (b :: t).getLastD a := rfl
    rw [hcons]
    exact List.mem_cons_of_mem a hm

/-- `getLast?` of a cons in terms of `getLastD`. -/
lemma getLast?_cons_eq_getLastD {α : Type} :
    ∀ (a : α) (l : List α), (a :: l).getLast? = some (l.getLastD a)
  | a, [] => rfl
  | a, b :: t => by
    have h1 : (a :: b :: t).getLast? = (b :: t).getLast? := by
      simp [List.getLast?_cons_cons]
    rw [h1, getLast?_cons_eq_getLastD b t, List.getLastD_cons]

/-- A background run always commits at least the `processing` state. -/
lemma bg_commits_ne_nil (env : BgEnv) (doc : Document) :
    bg_commits env doc ≠ [] := by
  unfold bg_commits
  rcases env.extract with e | text
  · dsimp only
    split_ifs <;> simp
  · dsimp only
    rcases env.add_documents with e2 | n <;> split_ifs <;> simp

/-- The committed states of one well-scheduled background run follow the
allowed status transitions. -/
lemma bg_commits_chain (env : BgEnv) (doc : Document)
    (h : doc.status = .pending) :
    List.Chain' (fun a b => allowedStep a.status b.status)
      (doc :: bg_commits env doc) := by
  unfold bg_commits
  rcases env.extract with e | text
  · dsimp only
    split_ifs <;>
      simp [List.chain'_cons, List.chain'_singleton, allowedStep, h]
  · dsimp only
    rcases env.add_documents with e2 | n <;> split_ifs <;>
      simp [List.chain'_cons, List.chain'_singleton, allowedStep, h]

/-- Every state committed by a background run keeps zero counts unless it is
the `completed` state. -/
lemma bg_commits_inv (env : BgEnv) (doc : Document)
    (hc : doc.chunk_count = 0) (he : doc.embedding_count = 0) :
    ∀ d ∈ bg_commits env doc,
      d.status ≠ .completed → d.chunk_count = 0 ∧ d.embedding_count = 0 := by
  unfold bg_commits
  rcases env.extract with e | text
  · dsimp only
    split_ifs <;> intro d hd <;>
      simp only [List.mem_cons, List.not_mem_nil, or_false] at hd <;>
      rcases hd with rfl | rfl <;> simp [hc, he]
  · dsimp only
    rcases env.add_documents with e2 | n <;> split_ifs <;> intro d hd <;>
      simp only [List.mem_cons, List.not_mem_nil, or_false] at hd <;>
      rcases hd with rfl | rfl <;> simp [hc, he]

/-- Any operation commits at least one state. -/
lemma op_commits_ne_nil (op : DocOp) (doc : Document) :
    op.commits doc ≠ [] := by
  cases op with
  | bg env => exact bg_commits_ne_nil env doc
  | reprocess => simp [DocOp.commits]

/-- Committed-state invariant for any operation applied to a row with zero
counts (when not completed). -/
lemma op_commits_inv (op : DocOp) (doc : Document)
    (hinv : doc.status ≠ .completed →
      doc.chunk_count = 0 ∧ doc.embedding_count = 0)
    (hop : match op with
           | .bg _ => doc.status = .pending
           | .reprocess => True) :
    ∀ d ∈ op.commits doc,
      d.status ≠ .completed → d.chunk_count = 0 ∧ d.embedding_count = 0 := by
  cases op with
  | bg env =>
    have hc := hinv (by rw [hop]; intro hcon; cases hcon)
    exact bg_commits_inv env doc hc.1 hc.2
  | reprocess =>
    intro d hd
    simp only [DocOp.commits, List.mem_singleton] at hd
    subst hd
    intro _
    exact ⟨rfl, rfl⟩

/-- Chain of allowed transitions for any well-scheduled operation. -/
lemma op_commits_chain (op : DocOp) (doc : Document)
    (hop : match op with
           | .bg _ => doc.status = .pending
           | .reprocess => True) :
    List.Chain' (fun a b => allowedStep a.status b.status)
      (doc :: op.commits doc) := by
  cases op with
  | bg env => exact bg_commits_chain env doc hop
  | reprocess =>
    simp [DocOp.commits, List.chain'_cons, List.chain'_singleton, allowedStep,
      reprocess_reset]

/-- Trace invariant: starting from a row whose counts are zero (unless
completed), any well-scheduled sequence of operations commits only allowed
status transitions, and every committed non-`completed` state has zero chunk
and embedding counts. -/
lemma docTrace_spec :
    ∀ (ops : List DocOp) (doc : Document),
      (doc.status ≠ .completed →
        doc.chunk_count = 0 ∧ doc.embedding_count = 0) →
      WellScheduled doc ops →
      List.Chain' (fun a b => allowedStep a.status b.status)
        (doc :: docTrace doc ops) ∧
      (∀ d ∈ docTrace doc ops,
        d.status ≠ .completed →
          d.chunk_count = 0 ∧ d.embedding_count = 0) := by
  intro ops
  induction ops with
  | nil =>
    intro doc hinv _
    constructor
    · simp [docTrace, List.chain'_singleton]
    · simp [docTrace]
  | cons op ops ih =>
    intro doc hinv hws
    obtain ⟨hop, hws'⟩ := hws
    have hne := op_commits_ne_nil op doc
    have hinv1 := op_commits_inv op doc hinv hop
    have hchain1 := op_commits_chain op doc hop
    have hlast_mem := getLastD_mem (op.commits doc) doc hne
    have hinvlast := hinv1 _ hlast_mem
    obtain ⟨hchain2, hinv2⟩ := ih ((op.commits doc).getLastD doc) hinvlast hws'
    have htr : docTrace doc (op :: ops) =
        op.commits doc ++ docTrace ((op.commits doc).getLastD doc) ops := rfl
    constructor
    · rw [htr]
      have hassoc : doc :: (op.commits doc ++
          docTrace ((op.commits doc).getLastD doc) ops) =
          (doc :: op.commits doc) ++
          docTrace ((op.commits doc).getLastD doc) ops := rfl
      rw [hassoc]
      rw [List.chain'_append]
      refine ⟨hchain1, ?_, ?_⟩
      · exact (List.chain'_cons'.mp hchain2).2
      · intro x hx y hy
        rw [getLast?_cons_eq_getLastD] at hx
        have hx' : x = (op.commits doc).getLastD doc := by
          injection hx with hinj
          exact hinj.symm
        subst hx'
        exact (List.chain'_cons'.mp hchain2).1 y hy
    · rw [htr]
      intro d hd
      rcases List.mem_append.mp hd with hd | hd
      · exact hinv1 d hd
      · exact hinv2 d hd

/-- Final state of a background run that failed at text extraction or at
vector insertion (with the failure-recording commit succeeding). -/
lemma bg_final_exception (env : BgEnv) (doc : Document) (e : String)
    (hrec : env.record_failure_ok = true)
    (h : env.extract = .error e ∨
      (∃ text, env.extract = .ok text ∧ ¬py_strip text = "" ∧
        split_text env.splitter text ≠ [] ∧ env.add_documents = .error e)) :
    (bg_final env doc).status = .failed ∧
    (bg_final env doc).error_message = some e := by
  rcases h with h | ⟨text, hx, hs, hch, ha⟩
  · unfold bg_final bg_commits
    rw [h]
    simp [hrec]
  · unfold bg_final bg_commits
    rw [hx]
    simp only [hs, if_false]
    have hch' : (split_text env.splitter text).isEmpty = false := by
      cases hsp : split_text env.splitter text with
      | nil => exact absurd hsp hch
      | cons a l => rfl
    rw [ha]
    simp [hch', hrec, hs]

/-- Final state of a background run whose extraction yields only whitespace. -/
lemma bg_final_whitespace (env : BgEnv) (doc : Document) (text : String)
    (hx : env.extract = .ok text) (hs : py_strip text = "") :
    (bg_final env doc).status = .failed ∧
    (bg_final env doc).error_message =
      some "No text content could be extracted from the file" := by
  unfold bg_final bg_commits
  rw [hx]
  simp [hs]

/-- Final state of a background run whose splitter produces no chunks. -/
lemma bg_final_no_chunks (env : BgEnv) (doc : Document) (text : String)
    (hx : env.extract = .ok text) (hs : ¬py_strip text = "")
    (hch : split_text env.splitter text = []) :
    (bg_final env doc).status = .failed ∧
    (bg_final env doc).error_message =
      some "Failed to split document into chunks" := by
  unfold bg_final bg_commits
  rw [hx]
  simp [hs, hch]

/-- C5: starting from a freshly created row (`pending`, zero counts), any
well-scheduled run of background-ingestion and reprocess operations commits
only the allowed status transitions `pending → processing → completed|failed`
(plus reprocess back to `pending`), keeps both counts at zero in every
committed state other than `completed`, and the background task — a total
function, so no exception ever propagates out of it — stores the descriptive
error and stops on whitespace-only extraction, on an empty chunk list, and on
any raised exception (provided recording the failure does not itself raise,
which the source swallows silently). -/
theorem C5_status_lifecycle :
    (∀ (doc : Document) (ops : List DocOp),
      doc.status = .pending → doc.chunk_count = 0 → doc.embedding_count = 0 →
      WellScheduled doc ops →
      List.Chain' (fun a b => allowedStep a.status b.status)
        (doc :: docTrace doc ops) ∧
      (∀ d ∈ doc :: docTrace doc ops,
        d.status ≠ .completed →
          d.chunk_count = 0 ∧ d.embedding_count = 0)) ∧
    (∀ (env : BgEnv) (doc : Document) (text : String),
      env.extract = .ok text → py_strip text = "" →
      (bg_final env doc).status = .failed ∧
      (bg_final env doc).error_message =
        some "No text content could be extracted from the file") ∧
    (∀ (env : BgEnv) (doc : Document) (text : String),
      env.extract = .ok text → ¬py_strip text = "" →
      split_text env.splitter text = [] →
      (bg_final env doc).status = .failed ∧
      (bg_final env doc).error_message =
        some "Failed to split document into chunks") ∧
    (∀ (env : BgEnv) (doc : Document) (e : String),
      env.record_failure_ok = true →
      (env.extract = .error e ∨
        (∃ text, env.extract = .ok text ∧ ¬py_strip text = "" ∧
          split_text env.splitter text ≠ [] ∧
          env.add_documents = .error e)) →
      (bg_final env doc).status = .failed ∧
      (bg_final env doc).error_message = some e) := by
  refine ⟨?_, bg_final_whitespace, bg_final_no_chunks, bg_final_exception⟩
  intro doc ops hst hc he hws
  obtain ⟨hchain, hinv⟩ :=
    docTrace_spec ops doc (fun _ => ⟨hc, he⟩) hws
  refine ⟨hchain, ?_⟩
  intro d hd
  rcases List.mem_cons.mp hd with rfl | hd
  · intro _
    exact ⟨hc, he⟩
  · exact hinv d hd

/-- Witness for C5: a fresh row, one failing ingestion run, a reprocess, and
the branch lemmas at concrete environments. -/
theorem C5_witness :
    (List.Chain' (fun a b => allowedStep a.status b.status)
      (exFreshDoc :: docTrace exFreshDoc [.bg exBgFail, .reprocess]) ∧
      (∀ d ∈ exFreshDoc :: docTrace exFreshDoc [.bg exBgFail, .reprocess],
        d.status ≠ .completed →
          d.chunk_count = 0 ∧ d.embedding_count = 0)) ∧
    ((bg_final exBgWhitespace exFreshDoc).status = .failed ∧
      (bg_final exBgWhitespace exFreshDoc).error_message =
        some "No text content could be extracted from the file") ∧
    ((bg_final exBgNoChunks exFreshDoc).status = .failed ∧
      (bg_final exBgNoChunks exFreshDoc).error_message =
        some "Failed to split document into chunks") ∧
    ((bg_final exBgFail exFreshDoc).status = .failed ∧
      (bg_final exBgFail exFreshDoc).error_message = some "boom") := by
  refine ⟨?_, ?_, ?_, ?_⟩
  · exact C5_status_lifecycle.1 exFreshDoc [.bg exBgFail, .reprocess] rfl rfl
      rfl ⟨rfl, trivial, trivial⟩
  · exact C5_status_lifecycle.2.1 exBgWhitespace exFreshDoc "   " rfl rfl
  · exact C5_status_lifecycle.2.2.1 exBgNoChunks exFreshDoc "hello" rfl
      (by decide) (by simp [split_text, exBgNoChunks])
  · exact C5_status_lifecycle.2.2.2 exBgFail exFreshDoc "boom" rfl (Or.inl rfl)
